import Mathlib

/-!
Verification of the Linux profile overlay module
(`volatility/plugins/overlays/linux/linux.py`).

The Python source is shallowly embedded: each Python function the claims
touch becomes a Lean function over explicit data; a Python exception that
escapes a function is an `Option`/explicit error value in its codomain;
external collaborators (the JSON parser, the DWARF parsers, the AddressSpace
constructor) are parameters of the embedded functions.
-/

namespace LinuxOverlay

/-! ## Python string primitives used by `parse_system_map`

`str.split()` (no separator) splits on runs of whitespace and drops empty
tokens; `str.strip()` drops leading/trailing whitespace; `str.splitlines()`
on a Python 2 byte string splits at `\n`, `\r` and `\r\n`, with no trailing
empty line. -/

/-- Whitespace characters of Python 2 `str.split()` / `str.strip()`. -/
def pyWs (c : Char) : Bool :=
  c = ' ' || c = '\t' || c = '\n' || c = '\r' || c = '\x0b' || c = '\x0c'

/-- Helper for `pySplit`: walk the characters, accumulating the current
token (reversed) in `acc`. -/
def pySplitAux : List Char → List Char → List String
  | [], [] => []
  | [], acc => [String.mk acc.reverse]
  | c :: rest, acc =>
    if pyWs c then
      match acc with
      | [] => pySplitAux rest []
      | _ => String.mk acc.reverse :: pySplitAux rest []
    else pySplitAux rest (c :: acc)

/-- Python 2 `line.split()`: whitespace-run separated tokens, empties dropped. -/
def pySplit (s : String) : List String := pySplitAux s.data []

/-- Python 2 `line.strip()`. -/
def pyStrip (s : String) : String :=
  String.mk (((s.data.dropWhile pyWs).reverse.dropWhile pyWs).reverse)

/-- Helper for `pySplitlines`: `acc` is the current line (reversed). -/
def pySplitlinesAux : List Char → List Char → List String
  | [], [] => []
  | [], acc => [String.mk acc.reverse]
  | '\n' :: rest, acc => String.mk acc.reverse :: pySplitlinesAux rest []
  | '\r' :: '\n' :: rest, acc => String.mk acc.reverse :: pySplitlinesAux rest []
  | '\r' :: rest, acc => String.mk acc.reverse :: pySplitlinesAux rest []
  | c :: rest, acc => pySplitlinesAux rest (c :: acc)

/-- Python 2 `data.splitlines()` for byte strings: boundaries are
`\n`, `\r\n` and `\r`. -/
def pySplitlines (data : String) : List String := pySplitlinesAux data.data []

/-! ## Python 2 `long(s, 16)` -/

/-- Hexadecimal digit test. -/
def isHexDig (c : Char) : Bool :=
  ('0' ≤ c && c ≤ '9') || ('a' ≤ c && c ≤ 'f') || ('A' ≤ c && c ≤ 'F')

/-- Value of a hexadecimal digit. -/
def hexVal (c : Char) : Nat :=
  if '0' ≤ c && c ≤ '9' then c.toNat - '0'.toNat
  else if 'a' ≤ c && c ≤ 'f' then c.toNat - 'a'.toNat + 10
  else c.toNat - 'A'.toNat + 10

/-- A nonempty run of hexadecimal digits, or failure. -/
def hexDigits? (cs : List Char) : Option Nat :=
  if cs ≠ [] && cs.all isHexDig then
    some (cs.foldl (fun a c => a * 16 + hexVal c) 0)
  else none

/-- The body of a base-16 literal: an optional `0x`/`0X` marker followed by
hexadecimal digits. -/
def hexBody? : List Char → Option Nat
  | '0' :: x :: rest =>
    if (x = 'x' || x = 'X') && rest ≠ [] then hexDigits? rest
    else hexDigits? ('0' :: x :: rest)
  | cs => hexDigits? cs

/-- Python 2 `long(s, 16)`: optional sign, optional `0x` marker, hexadecimal
digits; `none` models the `ValueError` it raises otherwise.  (The tokens fed
to it here come from `pySplit` and so contain no surrounding whitespace.) -/
def pyLong16? (s : String) : Option Int :=
  match s.data with
  | '+' :: rest => (hexBody? rest).map (fun n => (n : Int))
  | '-' :: rest => (hexBody? rest).map (fun n => -(n : Int))
  | cs => (hexBody? cs).map (fun n => (n : Int))

/-! ## `Linux32.parse_system_map`

The Python dict is an association list where the most recent assignment is
the first binding with the key, so `List.lookup` is the dict read.

```
sys_map = {}
for line in data.splitlines():
    (address, _, symbol) = line.strip().split()   # unpack NOT inside the try
    try:
        sys_map[symbol] = long(address, 16)
    except ValueError:
        pass
return sys_map
```
The tuple unpack raises `ValueError` when the line has other than exactly 3
tokens, and that unpack sits outside the `try`, so such a line aborts the
whole call; only the `long` conversion is protected. -/

abbrev SymMap := List (String × Int)

/-- The tuple unpack `(address, _, symbol) = line.strip().split()`:
`none` models the uncaught `ValueError` on other than 3 tokens. -/
def tokens3? (line : String) : Option (String × String × String) :=
  match pySplit (pyStrip line) with
  | [a, t, s] => some (a, t, s)
  | _ => none

/-- One iteration of the `parse_system_map` loop body over the dict `m`:
`none` is the uncaught unpack `ValueError`; an address that is not valid
hexadecimal leaves the dict unchanged (the `except ValueError: pass`). -/
def parseMapLine (m : SymMap) (line : String) : Option SymMap :=
  match tokens3? line with
  | some (address, _t, symbol) =>
    some (match pyLong16? address with
          | some v => (symbol, v) :: m
          | none => m)
  | none => none

/-- The `parse_system_map` loop over the split lines. -/
def parseMapGo : List String → SymMap → Option SymMap
  | [], m => some m
  | l :: rest, m =>
    match parseMapLine m l with
    | some m2 => parseMapGo rest m2
    | none => none

/-- `Linux32.parse_system_map`: `none` models an uncaught `ValueError`. -/
def parse_system_map (data : String) : Option SymMap :=
  parseMapGo (pySplitlines data) []

/-! Reference description of the parsed map, for the functional-correctness
claim: the value bound to a symbol is the address of the last line that names
that symbol with a valid hexadecimal address. -/

/-- First-of-two options. -/
def oor {α : Type} (a b : Option α) : Option α :=
  match a with
  | some v => some v
  | none => b

/-- The contribution of one line to symbol `s`: its parsed address when the
line is well formed, names `s`, and has a valid hexadecimal address. -/
def lineEntry (s : String) (line : String) : Option Int :=
  match tokens3? line with
  | some (address, _t, symbol) => if symbol = s then pyLong16? address else none
  | none => none

/-- The address of the last line contributing symbol `s` (later lines win). -/
def lastGood : List String → String → Option Int
  | [], _ => none
  | l :: rest, s => oor (lastGood rest s) (lineEntry s l)

/-! ## `timespec` arithmetic

```
sec = other.tv_sec + self.tv_sec
nsec = other.tv_nsec + self.tv_nsec
sec += nsec / self.NSEC_PER_SEC
nsec = nsec % self.NSEC_PER_SEC
```
Python 2 `/` and `%` on ints are floor division and floor modulus; for the
positive constant divisor `NSEC_PER_SEC` these coincide with `Int.ediv` and
`Int.emod`. -/

/-- A `timespec` value: the `tv_sec` / `tv_nsec` fields (Python ints). -/
structure timespec where
  tv_sec : Int
  tv_nsec : Int
deriving DecidableEq, Repr

/-- `timespec.NSEC_PER_SEC`. -/
def NSEC_PER_SEC : Int := 1000000000

/-- The arithmetic core of `timespec.__add__` (the branch reached when the
`isinstance` check has passed). -/
def timespec_add (self other : timespec) : timespec :=
  let sec := other.tv_sec + self.tv_sec
  let nsec := other.tv_nsec + self.tv_nsec
  ⟨sec + Int.ediv nsec NSEC_PER_SEC, Int.emod nsec NSEC_PER_SEC⟩

/-- Total duration of a `timespec` in nanoseconds. -/
def totalNs (t : timespec) : Int := t.tv_sec * NSEC_PER_SEC + t.tv_nsec

/-- A Python value handed to `timespec.__add__` as its right operand. -/
inductive PyVal where
  | ts : timespec → PyVal
  | intV : Int → PyVal
  | strV : String → PyVal
  | noneV : PyVal
deriving DecidableEq, Repr

/-- The `isinstance(other, self.__class__)` test. -/
def isTimespec : PyVal → Bool
  | .ts _ => true
  | _ => false

/-- The components of a `PyVal` known to be a `timespec`; the default is
never reached on the guarded path. -/
def asTimespec : PyVal → timespec
  | .ts t => t
  | _ => ⟨0, 0⟩

/-- `timespec.__add__` with its dynamic type check: the `isinstance` guard
runs first and raises `TypeError` (the `Except.error`) before either
operand's components are read. -/
def timespec_add_dyn (self : timespec) (other : PyVal) : Except String timespec :=
  if ¬ isTimespec other then
    Except.error "Can only add timespec to timespec"
  else
    Except.ok (timespec_add self (asTimespec other))

/-! ## Compatibility accessors (`files_struct`, `task_struct` uid/euid/gid)

A compiled layout instance is embedded as a record of optional members:
`some` when the compiled layout defines the field (so `hasattr` is true and
the read succeeds), `none` when it does not (an attribute error).  Members
are carried as the values the accessor would produce (a dereferenced table
for `fd`, an integer for `max_fds` and the ids). -/

/-- The members reached through the `fdt` pointer (`struct fdtable`). -/
structure fdtable_inst where
  fd : Int
  max_fds : Int
deriving DecidableEq, Repr

/-- A `files_struct` instance: `fdt` is the indirect table pointer of newer
layouts, `fd` / `max_fds` the direct fields of older layouts. -/
structure files_struct_inst where
  fdt : Option fdtable_inst
  fd : Option Int
  max_fds : Option Int
deriving DecidableEq, Repr

/-- `files_struct.get_fds`:
```
if hasattr(self, "fdt"):
    fdt = self.fdt
    ret = fdt.fd.dereference()
else:
    ret = self.fd.dereference()
```
-/
def get_fds (self : files_struct_inst) : Option Int :=
  match self.fdt with
  | some fdt => some fdt.fd
  | none => self.fd

/-- `files_struct.get_max_fds`:
```
if hasattr(self, "fdt"):
    ret = self.fdt.max_fds
else:
    ret = self.max_fds
```
-/
def get_max_fds (self : files_struct_inst) : Option Int :=
  match self.fdt with
  | some fdt => some fdt.max_fds
  | none => self.max_fds

/-- The credentials structure reached through `task_struct.cred`. -/
structure cred_inst where
  uid : Int
  euid : Int
  gid : Int
deriving DecidableEq, Repr

/-- A `task_struct` instance for the id accessors: `uid_member` is
`self.members.get("uid")` (a dict probe returning `None` when the compiled
layout has no such field), and likewise for the others. -/
structure task_struct_inst where
  uid_member : Option Int
  euid_member : Option Int
  gid_member : Option Int
  cred : Option cred_inst
deriving DecidableEq, Repr

/-- `task_struct.uid`:
```
ret = self.members.get("uid")
if ret is None:
    ret = self.cred.uid
```
-/
def task_uid (self : task_struct_inst) : Option Int :=
  match self.uid_member with
  | some v => some v
  | none => self.cred.map cred_inst.uid

/-- `task_struct.euid` (same shape as `task_struct.uid`). -/
def task_euid (self : task_struct_inst) : Option Int :=
  match self.euid_member with
  | some v => some v
  | none => self.cred.map cred_inst.euid

/-- `task_struct.gid` (same shape as `task_struct.uid`). -/
def task_gid (self : task_struct_inst) : Option Int :=
  match self.gid_member with
  | some v => some v
  | none => self.cred.map cred_inst.gid

/-! ## `timespec.wall_to_monotonic` / `timespec.total_sleep_time`

The profile's constant table is a function `String → Option Int`
(`get_constant`); the result of each property is described symbolically. -/

/-- What a boot-time global property evaluates to. -/
inductive TimeGlobalResult where
  /-- `self.obj_profile.timespec(vm=..., offset=addr)`: the timespec read at
  the standalone symbol's address. -/
  | tsAt : Int → TimeGlobalResult
  /-- The named field of the `timekeeper` aggregate read at its address. -/
  | tkField : Int → String → TimeGlobalResult
  /-- `self.obj_profile.timespec()`: an empty timespec. -/
  | emptyTs : TimeGlobalResult
  /-- Python's implicit `return None` at the end of a function body. -/
  | pyNone : TimeGlobalResult
  /-- A `NameError` raised by evaluating an undefined name. -/
  | nameError : TimeGlobalResult
deriving DecidableEq, Repr

/-- Python truthiness of `get_constant`'s result (`if wall_addr:`):
false for `None` and for address 0. -/
def truthyAddr : Option Int → Bool
  | some v => v ≠ 0
  | none => false

/-- `timespec.wall_to_monotonic`: the standalone symbol first, then the
`timekeeper` aggregate; when neither is truthy the function body ends and
Python returns `None`. -/
def wall_to_monotonic (get_constant : String → Option Int) : TimeGlobalResult :=
  if truthyAddr (get_constant "wall_to_monotonic") then
    .tsAt ((get_constant "wall_to_monotonic").getD 0)
  else if truthyAddr (get_constant "timekeeper") then
    .tkField ((get_constant "timekeeper").getD 0) "wall_to_monotonic"
  else
    .pyNone

/-- `timespec.total_sleep_time`.  On the standalone-symbol branch the source
executes `self.obj_profile.timespec(vm=self.obj_vm, offset=total_sleep_time)`
where the bare name `total_sleep_time` is undefined in the method's scope
(the computed local is `total_sleep_time_addr`), so that branch raises
`NameError`. -/
def total_sleep_time (get_constant : String → Option Int) : TimeGlobalResult :=
  if truthyAddr (get_constant "total_sleep_time") then
    .nameError
  else if truthyAddr (get_constant "timekeeper") then
    .tkField ((get_constant "timekeeper").getD 0) "total_sleep_time"
  else
    .emptyTs

/-! ## Archive entry-name matching (`Linux32._match_filename`)

`_match_filename(regex, zip)` yields the names of the archive, in order,
that `re.search(regex, name, re.I)` matches.  The regexes used are
`"\.json$"`, `"\.ko$"`, `"\.dwarf$"`, `"\.vtype$"` (a case-insensitive
suffix test) and `"system.map"` (a case-insensitive substring test in which
the `.` matches any one character). -/

/-- An archive: the ordered entries as (name, contents). -/
abbrev Archive := List (String × String)

/-- ASCII lowering of a name, for the `re.I` matches. -/
def toLowerStr (s : String) : String := String.mk (s.data.map Char.toLower)

/-- Suffix test on character lists. -/
def listEndsWith (s suffix : List Char) : Bool :=
  List.isPrefixOf suffix.reverse s.reverse

/-- `re.search("\.EXT$", name, re.I)` as a suffix test on the lowered name;
`ext` is passed with its leading dot. -/
def matchExt (ext : String) (name : String) : Bool :=
  listEndsWith (toLowerStr name).data ext.data

/-- Does the lowered character list start with `system`, any one character,
then `map` (the regex `system.map`)? -/
def sysmapHere : List Char → Bool
  | 's' :: 'y' :: 's' :: 't' :: 'e' :: 'm' :: _ :: 'm' :: 'a' :: 'p' :: _ => true
  | _ => false

/-- Does the regex `system.map` match anywhere in the character list? -/
def containsSysmap : List Char → Bool
  | [] => false
  | c :: rest => sysmapHere (c :: rest) || containsSysmap rest

/-- `re.search("system.map", name, re.I)` as a substring test. -/
def matchSysmap (name : String) : Bool := containsSysmap (toLowerStr name).data

/-! ## `Linux32.load_vtypes`

The layout type is abstract (`α`); the external collaborators are
parameters:
* `dwarfparserAvail` — whether the optional `dwarfparser` module imported;
* `koParse` — `DWARFParser(module).VType()`, with `none` for a falsy result;
* `dwarfParse` — `parse_dwarf_from_dump` (the legacy `dwarfdump` parser);
* `jsonLoads` — `json.loads`;
* `execVtype` — the value the disabled `exec` branch would produce.

The source returns on the first `*.json` entry, else the first truthy
`*.ko` parse when the collaborator imported, else the first `*.dwarf`
entry, else (under `if 0:`, never) the first `*.vtype` entry executed as
code, else `None`. -/

/-- The `if 0:` guard of the `*.vtype` code-execution branch. -/
def vtypeBranchEnabled : Bool := false

/-- `Linux32.load_vtypes`. -/
def load_vtypes {α : Type} (dwarfparserAvail : Bool)
    (koParse : String → Option α) (dwarfParse : String → α)
    (jsonLoads : String → α) (execVtype : String → α)
    (entries : Archive) : Option α :=
  match entries.find? (fun e => matchExt ".json" e.1) with
  | some e => some (jsonLoads e.2)
  | none =>
    match (if dwarfparserAvail then
             (entries.filterMap
               (fun e => if matchExt ".ko" e.1 then koParse e.2 else none)).head?
           else none) with
    | some r => some r
    | none =>
      match entries.find? (fun e => matchExt ".dwarf" e.1) with
      | some e => some (dwarfParse e.2)
      | none =>
        if vtypeBranchEnabled then
          (entries.find? (fun e => matchExt ".vtype" e.1)).map
            (fun e => execVtype e.2)
        else none

/-! ## `Linux32.parse_profile_file`

```
profile_file = zipfile.ZipFile(filename)
vtypes = self.load_vtypes(profile_file)
sys_map = None
for f in self._match_filename("system.map", profile_file):
    sys_map = self.parse_system_map(profile_file.read(f))
    self.add_constants(**sys_map)
if sys_map is None or vtypes is None:
    raise obj.ProfileError(...)
self.add_types(vtypes)
```
The registration state is the constants table plus the (optional) types;
`add_constants(**sys_map)` merges the parsed map into the constants with the
new bindings shadowing old ones.  The result is the state after the call
together with the escaping exception, if any: note that the constants of a
parsed `system.map` entry stay registered even when `ProfileError` (or a
`ValueError` out of `parse_system_map`) is then raised. -/

/-- The registration state of a `Profile`. -/
structure PState (α : Type) where
  constants : SymMap
  types : Option α
deriving DecidableEq, Repr

/-- The `for f in self._match_filename("system.map", ...)` loop: threads the
registration state, remembers the last parsed map (`sys_map`), and reports
whether `parse_system_map` raised (aborting the loop). -/
def sysmapLoop {α : Type} :
    Archive → PState α → Option SymMap → PState α × Option SymMap × Bool
  | [], st, last => (st, last, false)
  | e :: rest, st, last =>
    if matchSysmap e.1 then
      match parse_system_map e.2 with
      | some m => sysmapLoop rest ⟨m ++ st.constants, st.types⟩ (some m)
      | none => (st, last, true)
    else sysmapLoop rest st last

/-- `Linux32.parse_profile_file`: the final registration state and the
escaping exception (`"ValueError"` out of `parse_system_map`,
`"ProfileError"` for a missing component, `none` for success). -/
def parse_profile_file {α : Type} (dwarfparserAvail : Bool)
    (koParse : String → Option α) (dwarfParse : String → α)
    (jsonLoads : String → α) (execVtype : String → α)
    (entries : Archive) (st : PState α) : PState α × Option String :=
  let vtypes := load_vtypes dwarfparserAvail koParse dwarfParse jsonLoads
    execVtype entries
  match sysmapLoop entries st none with
  | (st2, _, true) => (st2, some "ValueError")
  | (st2, sys_map, false) =>
    if sys_map.isNone || vtypes.isNone then (st2, some "ProfileError")
    else (⟨st2.constants, vtypes⟩, none)

/-! ## `task_struct.get_process_address_space`

The `AddressSpace` class and its constructor live outside `src/`.

Modelled from the spec: an `AddressSpace` is a view over a backing store
(`base`) plus a session context and a directory-table-base, with a
diagnostic label; its constructor asserts a usable directory-table-base, so
it fails (with the `AssertionError` the source catches) exactly when handed
the translation-failure sentinel, and otherwise stores the given backing
store, session and directory-table-base. -/

/-- An address space; `β` is the backing-store type, `σ` the session type. -/
structure AddrSpace (β σ : Type) where
  base : β
  session : σ
  dtb : Int
  name : String
deriving DecidableEq, Repr

/-- Modelled from the spec: the `AddressSpace` class constructor
(`self.obj_vm.__class__(base=..., session=..., dtb=...)`), which is not under
`src/`.  It raises `AssertionError` (the `none`) exactly when the
directory-table-base is the translation-failure sentinel. -/
def as_constructor {β σ : Type} (base : β) (session : σ) (dtb : Option Int) :
    Option (AddrSpace β σ) :=
  dtb.map (fun d => ⟨base, session, d, ""⟩)

/-- The result of `get_process_address_space`. -/
inductive GPASResult (β σ : Type) where
  /-- The derived process address space. -/
  | ok : AddrSpace β σ → GPASResult β σ
  /-- `obj.NoneObject("Unable to get process AS")`. -/
  | noneObject : GPASResult β σ
deriving DecidableEq, Repr

/-- `task_struct.get_process_address_space`: `vtop` is the boot address
space's translation, `pgd` the raw `self.mm.pgd.v()` field value, `pid` the
process id.  The raw value is first translated through the boot address
space; the derived space is built from the boot space's backing store and
session; an `AssertionError` from the constructor becomes `NoneObject`; on
success the space is labeled `Process <pid>`. -/
def get_process_address_space {β σ : Type} (boot : AddrSpace β σ)
    (vtop : Int → Option Int) (pgd : Int) (pid : Int) : GPASResult β σ :=
  let directory_table_base := vtop pgd
  match as_constructor boot.base boot.session directory_table_base with
  | none => .noneObject
  | some pas =>
    .ok ⟨pas.base, pas.session, pas.dtb, "Process " ++ toString pid⟩

/-! ## Lemmas about `parse_system_map` -/

/-- The tuple unpack succeeds exactly on lines with 3 tokens. -/
lemma tokens3?_isSome_iff (l : String) :
    (tokens3? l).isSome = true ↔ (pySplit (pyStrip l)).length = 3 := by
  unfold tokens3?
  generalize pySplit (pyStrip l) = ts
  rcases ts with _ | ⟨a, _ | ⟨b, _ | ⟨c, _ | ⟨d, rest⟩⟩⟩⟩ <;> simp

/-- The loop survives exactly when every line has 3 tokens. -/
lemma parseMapGo_isSome_iff (lines : List String) (m : SymMap) :
    (parseMapGo lines m).isSome = true ↔
      ∀ l ∈ lines, (pySplit (pyStrip l)).length = 3 := by
  induction lines generalizing m with
  | nil => simp [parseMapGo]
  | cons l rest ih =>
    simp only [parseMapGo, parseMapLine]
    rcases htok : tokens3? l with _ | ⟨a, t, s⟩
    · have hne : ¬ (pySplit (pyStrip l)).length = 3 := by
        rw [← tokens3?_isSome_iff]; simp [htok]
      simp [hne]
    · have h3 : (pySplit (pyStrip l)).length = 3 := by
        rw [← tokens3?_isSome_iff]; simp [htok]
      simp [ih, h3]

/-- Second-option-is-none collapse for `oor`. -/
lemma oor_none_right {α : Type} (a : Option α) : oor a none = a := by
  cases a <;> rfl

/-- The dict built by the loop, described by lookups: a symbol's binding is
the last contributing line's address, with the initial dict behind. -/
lemma parseMapGo_lookup (lines : List String) (m : SymMap)
    (h : ∀ l ∈ lines, (pySplit (pyStrip l)).length = 3) :
    ∃ m2, parseMapGo lines m = some m2 ∧
      ∀ s, List.lookup s m2 = oor (lastGood lines s) (List.lookup s m) := by
  induction lines generalizing m with
  | nil => exact ⟨m, rfl, fun s => by simp [lastGood, oor]⟩
  | cons l rest ih =>
    have h3 : (tokens3? l).isSome = true := by
      rw [tokens3?_isSome_iff]; exact h l (by simp)
    rcases htok : tokens3? l with _ | ⟨a, t, sym⟩
    · rw [htok] at h3; simp at h3
    · have hrest : ∀ l' ∈ rest, (pySplit (pyStrip l')).length = 3 :=
        fun l' hl' => h l' (by simp [hl'])
      rcases hv : pyLong16? a with _ | v
      · obtain ⟨m2, hgo, hlook⟩ := ih m hrest
        refine ⟨m2, ?_, ?_⟩
        · simp [parseMapGo, parseMapLine, htok, hv, hgo]
        · intro s
          rw [hlook s]
          have hle : lineEntry s l = none := by
            simp [lineEntry, htok, hv]
          simp only [lastGood, hle, oor_none_right]
      · obtain ⟨m2, hgo, hlook⟩ := ih ((sym, v) :: m) hrest
        refine ⟨m2, ?_, ?_⟩
        · simp [parseMapGo, parseMapLine, htok, hv, hgo]
        · intro s
          rw [hlook s]
          have hle : lineEntry s l = if sym = s then some v else none := by
            simp [lineEntry, htok, hv]
          simp only [lastGood, hle]
          by_cases hs : sym = s
          · subst hs
            cases hl : lastGood rest sym <;>
              simp [oor, List.lookup, hl]
          · have hbeq : (s == sym) = false := beq_eq_false_iff_ne.mpr (Ne.symm hs)
            cases hl : lastGood rest s <;>
              simp [oor, List.lookup, hl, hs, hbeq]

/-! ## Claims C1 and C8 -/

/-- C1 counterexample: the claim says `parse_system_map` never fails and
skips every line that does not split into exactly 3 tokens, but the input
`"foo bar"` (one line of 2 tokens) makes the tuple unpack raise a
`ValueError` outside the `try`, aborting the call. -/
theorem C1_parse_system_map_not_total :
    parse_system_map "foo bar" = none := by decide

/-- C1 (amended): `parse_system_map` returns a mapping exactly when every
line of the input splits into exactly 3 whitespace-separated tokens; a line
with any other token count raises an uncaught `ValueError` (lines whose
first token is not valid hexadecimal are still skipped silently, which is
why only totality, not the skip, is restated here). -/
theorem C1_parse_system_map_total_iff (data : String) :
    (parse_system_map data).isSome = true ↔
      ∀ l ∈ pySplitlines data, (pySplit (pyStrip l)).length = 3 :=
  parseMapGo_isSome_iff (pySplitlines data) []

/-- C8: on input whose lines all split into exactly 3 tokens, the parse
succeeds and binds each symbol to the base-16 value of the address on the
last line that names it with a valid hexadecimal address; lines with an
invalid hexadecimal address contribute nothing. -/
theorem C8_parse_system_map_last_wins (data : String)
    (h : ∀ l ∈ pySplitlines data, (pySplit (pyStrip l)).length = 3) :
    ∃ m, parse_system_map data = some m ∧
      ∀ s, List.lookup s m = lastGood (pySplitlines data) s := by
  obtain ⟨m2, hgo, hlook⟩ := parseMapGo_lookup (pySplitlines data) [] h
  refine ⟨m2, hgo, fun s => ?_⟩
  rw [hlook s]
  simp [oor_none_right]

/-- C8 witness: a concrete map with a duplicate symbol (the later valid line
wins) and a trailing invalid-hex line for the same symbol (skipped). -/
theorem C8_parse_system_map_last_wins_witness :
    (∀ l ∈ pySplitlines "c0 T foo\nff T foo\nzz T foo",
      (pySplit (pyStrip l)).length = 3) ∧
    ∃ m, parse_system_map "c0 T foo\nff T foo\nzz T foo" = some m ∧
      ∀ s, List.lookup s m = lastGood (pySplitlines "c0 T foo\nff T foo\nzz T foo") s :=
  ⟨by decide, C8_parse_system_map_last_wins _ (by decide)⟩

/-! ## Claims C7 and C10 (`timespec.__add__`) -/

/-- Division identities for `NSEC_PER_SEC`, fed to `omega`. -/
lemma nsec_emod_facts (a : Int) :
    1000000000 * Int.ediv a 1000000000 + Int.emod a 1000000000 = a ∧
    0 ≤ Int.emod a 1000000000 ∧ Int.emod a 1000000000 < 1000000000 :=
  ⟨Int.ediv_add_emod a 1000000000, Int.emod_nonneg a (by norm_num),
   Int.emod_lt_of_pos a (by norm_num)⟩

/-- C7: for non-negative operands, `__add__` normalizes the nanoseconds into
`[0, NSEC_PER_SEC)`, preserves the total duration in nanoseconds, and is
associative; the worked example's two groupings both give (4, 100000000).
(The normalization bound, the duration sum and associativity in fact need no
sign hypotheses; they are carried to match the claim's wording.) -/
theorem C7_timespec_add_properties (a b c : timespec)
    (_ha : 0 ≤ a.tv_sec ∧ 0 ≤ a.tv_nsec) (_hb : 0 ≤ b.tv_sec ∧ 0 ≤ b.tv_nsec)
    (_hc : 0 ≤ c.tv_sec ∧ 0 ≤ c.tv_nsec) :
    (0 ≤ (timespec_add a b).tv_nsec ∧ (timespec_add a b).tv_nsec < NSEC_PER_SEC) ∧
    totalNs (timespec_add a b) = totalNs a + totalNs b ∧
    timespec_add (timespec_add a b) c = timespec_add a (timespec_add b c) ∧
    timespec_add (timespec_add ⟨1, 900000000⟩ ⟨2, 200000000⟩) ⟨0, 0⟩ =
      ⟨4, 100000000⟩ ∧
    timespec_add ⟨1, 900000000⟩ (timespec_add ⟨2, 200000000⟩ ⟨0, 0⟩) =
      ⟨4, 100000000⟩ := by
  refine ⟨?_, ?_, ?_, by decide, by decide⟩
  · have h1 := nsec_emod_facts (b.tv_nsec + a.tv_nsec)
    simp only [timespec_add, NSEC_PER_SEC]
    omega
  · have h1 := nsec_emod_facts (b.tv_nsec + a.tv_nsec)
    simp only [timespec_add, totalNs, NSEC_PER_SEC]
    ring_nf
    omega
  · simp only [timespec_add, NSEC_PER_SEC, timespec.mk.injEq]
    have h1 := nsec_emod_facts (b.tv_nsec + a.tv_nsec)
    have h2 := nsec_emod_facts (c.tv_nsec + b.tv_nsec)
    have h3 := nsec_emod_facts (c.tv_nsec + Int.emod (b.tv_nsec + a.tv_nsec) 1000000000)
    have h4 := nsec_emod_facts (Int.emod (c.tv_nsec + b.tv_nsec) 1000000000 + a.tv_nsec)
    constructor <;> omega

/-- C7 witness: the theorem applied at the worked example's operands. -/
theorem C7_timespec_add_properties_witness :
    (0 ≤ (timespec_add ⟨1, 900000000⟩ ⟨2, 200000000⟩).tv_nsec ∧
      (timespec_add ⟨1, 900000000⟩ ⟨2, 200000000⟩).tv_nsec < NSEC_PER_SEC) ∧
    totalNs (timespec_add ⟨1, 900000000⟩ ⟨2, 200000000⟩) =
      totalNs ⟨1, 900000000⟩ + totalNs ⟨2, 200000000⟩ ∧
    timespec_add (timespec_add ⟨1, 900000000⟩ ⟨2, 200000000⟩) ⟨0, 0⟩ =
      timespec_add ⟨1, 900000000⟩ (timespec_add ⟨2, 200000000⟩ ⟨0, 0⟩) ∧
    timespec_add (timespec_add ⟨1, 900000000⟩ ⟨2, 200000000⟩) ⟨0, 0⟩ =
      ⟨4, 100000000⟩ ∧
    timespec_add ⟨1, 900000000⟩ (timespec_add ⟨2, 200000000⟩ ⟨0, 0⟩) =
      ⟨4, 100000000⟩ :=
  C7_timespec_add_properties ⟨1, 900000000⟩ ⟨2, 200000000⟩ ⟨0, 0⟩
    (by decide) (by decide) (by decide)

/-- C10: `timespec.__add__` raises `TypeError` on every right operand that
is not a `timespec` instance (the `isinstance` guard runs before either
operand's components are read, and in this pure embedding neither operand is
ever mutated), and on a `timespec` operand it performs the component
addition with no coercion path. -/
theorem C10_timespec_add_type_check (self : timespec) (other : PyVal) :
    (isTimespec other = false →
      timespec_add_dyn self other =
        Except.error "Can only add timespec to timespec") ∧
    (∀ t, other = PyVal.ts t →
      timespec_add_dyn self other = Except.ok (timespec_add self t)) := by
  constructor
  · intro hother
    simp [timespec_add_dyn, hother]
  · rintro t rfl
    simp [timespec_add_dyn, isTimespec, asTimespec]

/-- C10 witness: the theorem applied to an integer operand (rejected) and to
a `timespec` operand (added). -/
theorem C10_timespec_add_type_check_witness :
    (isTimespec (PyVal.intV 5) = false →
      timespec_add_dyn ⟨1, 2⟩ (PyVal.intV 5) =
        Except.error "Can only add timespec to timespec") ∧
    (∀ t, PyVal.intV 5 = PyVal.ts t →
      timespec_add_dyn ⟨1, 2⟩ (PyVal.intV 5) =
        Except.ok (timespec_add ⟨1, 2⟩ t)) :=
  C10_timespec_add_type_check ⟨1, 2⟩ (PyVal.intV 5)

/-! ## Claim C2 (compatibility accessors) -/

/-- C2 counterexample: on a layout in which both the indirect table pointer
`fdt` (here yielding table 7, max 32) and the direct fields `fd = 9`,
`max_fds = 64` are present, `get_fds` and `get_max_fds` return the values
obtained through `fdt` — the indirect alternative — not the direct fields
the claim promises. -/
theorem C2_get_fds_probes_fdt_first :
    get_fds ⟨some ⟨7, 32⟩, some 9, some 64⟩ = some 7 ∧
    get_max_fds ⟨some ⟨7, 32⟩, some 9, some 64⟩ = some 32 ∧
    (some 7 : Option Int) ≠ some 9 ∧ (some 32 : Option Int) ≠ some 64 := by
  decide

/-- C2 (amended): each accessor probes its alternatives in a fixed order and
returns the first whose defining field is present, but the order differs per
concept: `get_fds` and `get_max_fds` probe the indirect `fdt` table pointer
first and the direct field only in its absence, while `uid`/`euid`/`gid`
probe the direct inline member first and the nested credentials structure
only in its absence. -/
theorem C2_accessor_priority_amended :
    (∀ (s : files_struct_inst) (f : fdtable_inst), s.fdt = some f →
      get_fds s = some f.fd ∧ get_max_fds s = some f.max_fds) ∧
    (∀ s : files_struct_inst, s.fdt = none →
      get_fds s = s.fd ∧ get_max_fds s = s.max_fds) ∧
    (∀ (t : task_struct_inst) (v : Int),
      (t.uid_member = some v → task_uid t = some v) ∧
      (t.euid_member = some v → task_euid t = some v) ∧
      (t.gid_member = some v → task_gid t = some v)) ∧
    (∀ t : task_struct_inst,
      (t.uid_member = none → task_uid t = t.cred.map cred_inst.uid) ∧
      (t.euid_member = none → task_euid t = t.cred.map cred_inst.euid) ∧
      (t.gid_member = none → task_gid t = t.cred.map cred_inst.gid)) := by
  refine ⟨?_, ?_, ?_, ?_⟩
  · rintro s f hf
    simp [get_fds, get_max_fds, hf]
  · rintro s hf
    simp [get_fds, get_max_fds, hf]
  · rintro t v
    refine ⟨fun h => ?_, fun h => ?_, fun h => ?_⟩ <;>
      simp [task_uid, task_euid, task_gid, h]
  · rintro t
    refine ⟨fun h => ?_, fun h => ?_, fun h => ?_⟩ <;>
      simp [task_uid, task_euid, task_gid, h]

/-- C2 witness: the amended priority at concrete layouts — `fdt` wins over
the present direct fields, and the direct `uid` member wins over present
credentials. -/
theorem C2_accessor_priority_amended_witness :
    get_fds ⟨some ⟨7, 32⟩, some 9, some 64⟩ = some (7 : Int) ∧
    get_max_fds ⟨some ⟨7, 32⟩, some 9, some 64⟩ = some (32 : Int) ∧
    task_uid ⟨some 1000, some 1001, some 1002, some ⟨5, 6, 7⟩⟩ = some 1000 ∧
    task_uid ⟨none, none, none, some ⟨5, 6, 7⟩⟩ = some 5 :=
  ⟨((C2_accessor_priority_amended.1 _ ⟨7, 32⟩ rfl).1),
   ((C2_accessor_priority_amended.1 _ ⟨7, 32⟩ rfl).2),
   ((C2_accessor_priority_amended.2.2.1 _ 1000).1 rfl),
   by
     have h := (C2_accessor_priority_amended.2.2.2 ⟨none, none, none, some ⟨5, 6, 7⟩⟩).1 rfl
     simpa using h⟩

/-! ## Claim C4 (boot-time globals) -/

/-- C4: evaluation of the two boot-time global properties at the inputs
where the code and the claim part ways.  With the standalone symbol
`total_sleep_time` resolving to address 4096, the property raises
`NameError` (the source passes the undefined bare name `total_sleep_time`
instead of the computed `total_sleep_time_addr`) rather than returning the
timespec at 4096; and with neither symbol resolving, `wall_to_monotonic`
falls off the end of the function body and returns Python `None` rather
than an empty timespec. -/
theorem C4_boot_time_globals_diverge :
    total_sleep_time (fun s => if s = "total_sleep_time" then some 4096 else none) =
      TimeGlobalResult.nameError ∧
    TimeGlobalResult.nameError ≠ TimeGlobalResult.tsAt 4096 ∧
    wall_to_monotonic (fun _ => none) = TimeGlobalResult.pyNone ∧
    TimeGlobalResult.pyNone ≠ TimeGlobalResult.emptyTs ∧
    total_sleep_time (fun _ => none) = TimeGlobalResult.emptyTs := by
  decide

/-! ## Claims C5 and C9 (`load_vtypes`) -/

/-- C5: the three ingestion tiers are strict and exclusive. With any entry
matching `*.json` present, the result is `json.loads` of the first such
entry and is independent of the `*.ko` and `*.dwarf` collaborators (those
tiers are never consulted); with the `dwarfparser` collaborator absent, the
result is independent of the `*.ko` collaborator (the tier is skipped
entirely); and when no `*.json` entry exists and the `*.ko` tier is skipped
or yields no truthy result, the result is the legacy parse of the first
`*.dwarf` entry (or `none` without one). -/
theorem C5_load_vtypes_tier_priority {α : Type} (avail : Bool)
    (ko ko' : String → Option α) (dw dw' js ex ex' : String → α)
    (entries : Archive) :
    ((∃ e ∈ entries, matchExt ".json" e.1 = true) →
      (∃ e, entries.find? (fun x => matchExt ".json" x.1) = some e ∧
        load_vtypes avail ko dw js ex entries = some (js e.2)) ∧
      load_vtypes avail ko dw js ex entries =
        load_vtypes avail ko' dw' js ex' entries) ∧
    (load_vtypes false ko dw js ex entries =
      load_vtypes false ko' dw js ex entries) ∧
    ((¬ ∃ e ∈ entries, matchExt ".json" e.1 = true) →
      (avail = false ∨ ∀ e ∈ entries, matchExt ".ko" e.1 = true → ko e.2 = none) →
      load_vtypes avail ko dw js ex entries =
        (entries.find? (fun x => matchExt ".dwarf" x.1)).map (fun e => dw e.2)) := by
  refine ⟨?_, ?_, ?_⟩
  · intro hjson
    have hfind : (entries.find? (fun x => matchExt ".json" x.1)).isSome := by
      rw [List.find?_isSome]; exact hjson
    obtain ⟨e, he⟩ := Option.isSome_iff_exists.mp hfind
    exact ⟨⟨e, he, by simp [load_vtypes, he]⟩, by simp [load_vtypes, he]⟩
  · simp only [load_vtypes]
    cases entries.find? (fun x => matchExt ".json" x.1) <;> simp
  · intro hjson hko
    have hfind : entries.find? (fun x => matchExt ".json" x.1) = none := by
      rw [List.find?_eq_none]
      intro x hx hpx
      exact hjson ⟨x, hx, hpx⟩
    have hkotier :
        (if avail then
          (entries.filterMap
            (fun e => if matchExt ".ko" e.1 then ko e.2 else none)).head?
         else none) = none := by
      rcases hko with rfl | hnone
      · rfl
      · have : entries.filterMap
            (fun e => if matchExt ".ko" e.1 then ko e.2 else none) = [] := by
          rw [List.filterMap_eq_nil_iff]
          intro e he
          by_cases hm : matchExt ".ko" e.1 = true
          · simp [hm, hnone e he hm]
          · simp [hm]
        cases avail <;> simp [this]
    simp only [load_vtypes, hfind, hkotier]
    cases entries.find? (fun x => matchExt ".dwarf" x.1) <;>
      simp [vtypeBranchEnabled]

/-- Concrete archive with one entry of each ingestion kind. -/
def c5A : Archive := [("m.ko", "k"), ("t.json", "j"), ("d.dwarf", "w")]

/-- Concrete archive with no `*.json` entry. -/
def c5B : Archive := [("m.ko", "k"), ("d.dwarf", "w")]

/-- A `*.ko` collaborator producing a truthy layout. -/
def c5Ko : String → Option Nat := fun _ => some 3

/-- A `*.ko` collaborator producing only falsy results. -/
def c5KoNone : String → Option Nat := fun _ => none

/-- The legacy `*.dwarf` parser collaborator. -/
def c5Dw : String → Nat := fun _ => 2

/-- A different legacy `*.dwarf` parser collaborator. -/
def c5Dw' : String → Nat := fun _ => 7

/-- The `json.loads` collaborator. -/
def c5Js : String → Nat := fun _ => 1

/-- One value the disabled code-execution branch could produce. -/
def c5Ex : String → Nat := fun _ => 9

/-- Another value the disabled code-execution branch could produce. -/
def c5Ex' : String → Nat := fun _ => 8

/-- C5 witness: the theorem applied at concrete archives — the `*.json`
entry wins and the ko/dwarf collaborators are irrelevant; without a json
entry and with the collaborator absent, the first `*.dwarf` entry is
parsed. -/
theorem C5_load_vtypes_tier_priority_witness :
    load_vtypes true c5Ko c5Dw c5Js c5Ex c5A = some 1 ∧
    load_vtypes true c5Ko c5Dw c5Js c5Ex c5A =
      load_vtypes true c5KoNone c5Dw' c5Js c5Ex' c5A ∧
    load_vtypes false c5KoNone c5Dw c5Js c5Ex c5B =
      (c5B.find? (fun x => matchExt ".dwarf" x.1)).map (fun e => c5Dw e.2) := by
  have h1 := C5_load_vtypes_tier_priority true c5Ko c5KoNone c5Dw c5Dw' c5Js
    c5Ex c5Ex' c5A
  have h2 := C5_load_vtypes_tier_priority false c5KoNone c5KoNone c5Dw c5Dw
    c5Js c5Ex c5Ex c5B
  obtain ⟨⟨e, he, hl⟩, heq⟩ := h1.1 ⟨("t.json", "j"), by decide, by decide⟩
  have hf : c5A.find? (fun x => matchExt ".json" x.1) = some ("t.json", "j") := by
    decide
  rw [hf] at he
  obtain rfl : ("t.json", "j") = e := Option.some_inj.mp he
  exact ⟨hl, heq, h2.2.2 (by decide) (Or.inl rfl)⟩

/-- C9: the `*.vtype` code-execution branch of `load_vtypes` is dead: its
guard is the constant false, and for every archive and collaborators the
result is independent of what executing a `*.vtype` entry would produce. -/
theorem C9_vtype_exec_branch_unreachable {α : Type} (avail : Bool)
    (ko : String → Option α) (dw js : String → α) (ex ex' : String → α)
    (entries : Archive) :
    load_vtypes avail ko dw js ex entries =
      load_vtypes avail ko dw js ex' entries ∧
    vtypeBranchEnabled = false := by
  refine ⟨?_, rfl⟩
  simp [load_vtypes, vtypeBranchEnabled]

/-! ## Claim C3 (`parse_profile_file`) -/

/-- When every matching entry's map parses, the `system.map` loop finishes
without raising, leaves the registered types untouched, and ends with
`sys_map` set exactly when some entry matched. -/
lemma sysmapLoop_no_raise {α : Type} (entries : Archive) (st : PState α)
    (last : Option SymMap)
    (h : ∀ e ∈ entries, matchSysmap e.1 = true →
      (parse_system_map e.2).isSome = true) :
    ∃ st2 last2,
      sysmapLoop entries st last = (st2, last2, false) ∧
      (last2.isSome = true ↔
        (last.isSome = true ∨ ∃ e ∈ entries, matchSysmap e.1 = true)) ∧
      st2.types = st.types := by
  induction entries generalizing st last with
  | nil => exact ⟨st, last, rfl, by simp, rfl⟩
  | cons e rest ih =>
    have hrest : ∀ e' ∈ rest, matchSysmap e'.1 = true →
        (parse_system_map e'.2).isSome = true :=
      fun e' he' => h e' (by simp [he'])
    by_cases hm : matchSysmap e.1 = true
    · obtain ⟨m, hpm⟩ := Option.isSome_iff_exists.mp (h e (by simp) hm)
      obtain ⟨st2, last2, hloop, hiff, hty⟩ :=
        ih ⟨m ++ st.constants, st.types⟩ (some m) hrest
      refine ⟨st2, last2, ?_, ?_, hty⟩
      · simp [sysmapLoop, hm, hpm, hloop]
      · rw [hiff]
        simp only [Option.isSome_some, true_or, true_iff]
        exact Or.inr ⟨e, by simp, hm⟩
    · obtain ⟨st2, last2, hloop, hiff, hty⟩ := ih st last hrest
      refine ⟨st2, last2, ?_, ?_, hty⟩
      · simp [sysmapLoop, hm, hloop]
      · rw [hiff]
        constructor
        · rintro (hl | ⟨e', he', hm'⟩)
          · exact Or.inl hl
          · exact Or.inr ⟨e', by simp [he'], hm'⟩
        · rintro (hl | ⟨e', he', hm'⟩)
          · exact Or.inl hl
          · rcases List.mem_cons.mp he' with rfl | he''
            · exact absurd hm' hm
            · exact Or.inr ⟨e', he'', hm'⟩

/-- C3 counterexample: first, an archive with TWO `system.map` entries (and
a json layout) compiles without error, though the claim requires exactly
one such entry; second, an archive whose (single) `system.map` entry parses
but that yields no layout raises `ProfileError` only AFTER the map's
constants were registered — the final state holds `foo ↦ 0xc0` — so the
claim's "on failure nothing is registered" fails. -/
theorem C3_not_exactly_one_and_partial_registration :
    (parse_profile_file (α := Nat) true (fun _ => none) (fun _ => 0)
        (fun _ => 1) (fun _ => 0)
        [("System.map-a", "c0 T foo"), ("SYSTEM.MAP-b", "c4 T bar"), ("t.json", "d")]
        ⟨[], none⟩).2 = none ∧
    (parse_profile_file (α := Nat) true (fun _ => none) (fun _ => 0)
        (fun _ => 1) (fun _ => 0)
        [("System.map", "c0 T foo")] ⟨[], none⟩) =
      (⟨[("foo", 192)], none⟩, some "ProfileError") := by
  decide

/-- C3 (amended): provided every matching `system.map` entry's content
parses, compilation raises `ProfileError` exactly when no archive entry
matches `system.map` (one or MORE matches are accepted, each parsed and
registered in order) or no layout-ingestion tier yields a result; it
succeeds exactly when both components are present; types are registered
exactly on success — but constants of already-parsed `system.map` entries
stay registered even when `ProfileError` is then raised (shown by the
counterexample), so the failure is not free of partial registration. -/
theorem C3_parse_profile_file_amended {α : Type} (avail : Bool)
    (ko : String → Option α) (dw js ex : String → α) (entries : Archive)
    (h : ∀ e ∈ entries, matchSysmap e.1 = true →
      (parse_system_map e.2).isSome = true) :
    ((parse_profile_file avail ko dw js ex entries ⟨[], none⟩).2 =
        some "ProfileError" ↔
      ((¬ ∃ e ∈ entries, matchSysmap e.1 = true) ∨
        load_vtypes avail ko dw js ex entries = none)) ∧
    ((parse_profile_file avail ko dw js ex entries ⟨[], none⟩).2 = none ↔
      ((∃ e ∈ entries, matchSysmap e.1 = true) ∧
        (load_vtypes avail ko dw js ex entries).isSome = true)) ∧
    ((parse_profile_file avail ko dw js ex entries ⟨[], none⟩).2 = none →
      (parse_profile_file avail ko dw js ex entries ⟨[], none⟩).1.types =
        load_vtypes avail ko dw js ex entries) ∧
    ((parse_profile_file avail ko dw js ex entries ⟨[], none⟩).2 ≠ none →
      (parse_profile_file avail ko dw js ex entries ⟨[], none⟩).1.types =
        none) := by
  obtain ⟨st2, last2, hloop, hiff, hty⟩ :=
    sysmapLoop_no_raise entries (⟨[], none⟩ : PState α) none h
  have hty2 : st2.types = none := hty
  simp only [parse_profile_file, hloop]
  rcases hl2 : last2 with _ | m
  · rw [hl2] at hiff
    have hnex : ¬ ∃ e ∈ entries, matchSysmap e.1 = true := by
      intro hx
      have hcon := hiff.mpr (Or.inr hx)
      simp at hcon
    refine ⟨iff_of_true (by simp) (Or.inl hnex),
      iff_of_false (by simp) ?_, ?_, ?_⟩
    · rintro ⟨hx, _⟩
      exact hnex hx
    · intro hcon
      simp at hcon
    · intro _
      simpa using hty2
  · rw [hl2] at hiff
    have hex : ∃ e ∈ entries, matchSysmap e.1 = true := by
      rcases hiff.mp (by simp) with hf | hx
      · exact absurd hf (by simp)
      · exact hx
    rcases hv : load_vtypes avail ko dw js ex entries with _ | v
    · refine ⟨iff_of_true (by simp) (Or.inr rfl),
        iff_of_false (by simp) ?_, ?_, ?_⟩
      · rintro ⟨_, hs⟩
        simp at hs
      · intro hcon
        simp at hcon
      · intro _
        simpa using hty2
    · refine ⟨iff_of_false (by simp) ?_, iff_of_true (by simp) ⟨hex, by simp⟩,
        ?_, ?_⟩
      · rintro (hn | hvn)
        · exact hn hex
        · simp at hvn
      · intro _
        simp
      · intro hne
        exact absurd (by simp) hne

/-- Concrete archive for the C3 witness: one `system.map` entry whose
content parses, plus a json layout entry. -/
def c3A : Archive := [("System.map", "c0 T foo"), ("t.json", "d")]

/-- C3 witness: the amended theorem applied to `c3A` with the json
collaborator `c5Js`, discharging the parse hypothesis by evaluation. -/
theorem C3_parse_profile_file_amended_witness :
    (∀ e ∈ c3A, matchSysmap e.1 = true →
      (parse_system_map e.2).isSome = true) ∧
    ((parse_profile_file false c5KoNone c5Dw c5Js c5Ex c3A ⟨[], none⟩).2 =
        some "ProfileError" ↔
      ((¬ ∃ e ∈ c3A, matchSysmap e.1 = true) ∨
        load_vtypes false c5KoNone c5Dw c5Js c5Ex c3A = none)) ∧
    ((parse_profile_file false c5KoNone c5Dw c5Js c5Ex c3A ⟨[], none⟩).2 =
        none ↔
      ((∃ e ∈ c3A, matchSysmap e.1 = true) ∧
        (load_vtypes false c5KoNone c5Dw c5Js c5Ex c3A).isSome = true)) ∧
    ((parse_profile_file false c5KoNone c5Dw c5Js c5Ex c3A ⟨[], none⟩).2 =
        none →
      (parse_profile_file false c5KoNone c5Dw c5Js c5Ex c3A ⟨[], none⟩).1.types =
        load_vtypes false c5KoNone c5Dw c5Js c5Ex c3A) ∧
    ((parse_profile_file false c5KoNone c5Dw c5Js c5Ex c3A ⟨[], none⟩).2 ≠
        none →
      (parse_profile_file false c5KoNone c5Dw c5Js c5Ex c3A ⟨[], none⟩).1.types =
        none) :=
  ⟨by decide,
   C3_parse_profile_file_amended false c5KoNone c5Dw c5Js c5Ex c3A (by decide)⟩

/-! ## Claim C6 (`get_process_address_space`) -/

/-- C6: the raw `mm.pgd` value is translated through the boot address space
and the derived space is keyed by the translated value, shares the boot
space's backing store and session, and is labeled with the process id; when
the translation (and hence the constructor's assertion) fails, the result
is the `NoneObject` sentinel — the function is total, never an exception. -/
theorem C6_process_as_derivation {β σ : Type} (boot : AddrSpace β σ)
    (vtop : Int → Option Int) (pgd pid : Int) :
    (vtop pgd = none →
      get_process_address_space boot vtop pgd pid = GPASResult.noneObject) ∧
    (∀ d, vtop pgd = some d →
      get_process_address_space boot vtop pgd pid =
        GPASResult.ok
          ⟨boot.base, boot.session, d, "Process " ++ toString pid⟩) := by
  constructor
  · intro hv
    simp [get_process_address_space, as_constructor, hv]
  · intro d hv
    simp [get_process_address_space, as_constructor, hv]

/-- Concrete boot address space for the C6 witness. -/
def c6Boot : AddrSpace Nat Nat := ⟨1, 2, 3, "boot"⟩

/-- Concrete boot translation for the C6 witness: only virtual 100 maps. -/
def c6Vtop : Int → Option Int := fun a => if a = 100 then some 200 else none

/-- C6 witness: the theorem applied at a translatable and an untranslatable
raw page-table-base value. -/
theorem C6_process_as_derivation_witness :
    get_process_address_space c6Boot c6Vtop 5 7 = GPASResult.noneObject ∧
    get_process_address_space c6Boot c6Vtop 100 7 =
      GPASResult.ok
        ⟨c6Boot.base, c6Boot.session, 200, "Process " ++ toString (7 : Int)⟩ :=
  ⟨(C6_process_as_derivation c6Boot c6Vtop 5 7).1 (by decide),
   (C6_process_as_derivation c6Boot c6Vtop 100 7).2 200 (by decide)⟩

end LinuxOverlay
